import Mathlib

/-!
Verification of the CRISPR spike-gene simulator core logic
(guide selection, outcome partitioning, sequence diffing),
shallowly embedded from `src/app.py`.
-/

namespace CrisprSim

/-! ## Outcome Partitioner

Embeds the numeric part of `create_outcome_pie_chart` (app.py lines 45-61).
Python floats are modelled by exact rationals; the decimal literals
`0.4`, `0.3`, `0.01` denote the corresponding exact rationals. -/

/-- The five outcome probabilities computed by `create_outcome_pie_chart`
from the off-target risk and cleavage probability, in the order
`[off_risk, loss_func, part_func, no_effect, unmodeled]` of the
`values` list of app.py line 61. -/
def outcomeValues (off_risk p_cleave : ℚ) : List ℚ :=
  let loss_func := p_cleave * 0.4
  let part_func := p_cleave * 0.3
  let unmodeled := 0.01
  let no_effect := max 0 (1 - (off_risk + loss_func + part_func + unmodeled))
  [off_risk, loss_func, part_func, no_effect, unmodeled]

/-- C1: for `p_cleave, off_target_risk ∈ [0,1]` with
`off_target_risk + 0.4*p_cleave + 0.3*p_cleave + 0.01 ≤ 1`, the five
partitioned values are all non-negative and sum to exactly 1. -/
theorem outcome_values_sum_one (p r : ℚ)
    (hp0 : 0 ≤ p) (hp1 : p ≤ 1) (hr0 : 0 ≤ r) (hr1 : r ≤ 1)
    (hle : r + 0.4 * p + 0.3 * p + 0.01 ≤ 1) :
    (∀ v ∈ outcomeValues r p, 0 ≤ v) ∧ (outcomeValues r p).sum = 1 := by
  have hmax : max 0 (1 - (r + p * 0.4 + p * 0.3 + 0.01)) =
      1 - (r + p * 0.4 + p * 0.3 + 0.01) := by
    apply max_eq_right
    nlinarith
  constructor
  · intro v hv
    simp only [outcomeValues, List.mem_cons, List.not_mem_nil, or_false] at hv
    rcases hv with h | h | h | h | h
    · exact h ▸ hr0
    · rw [h]; nlinarith
    · rw [h]; nlinarith
    · exact h ▸ le_max_left 0 _
    · rw [h]; norm_num
  · simp only [outcomeValues, List.sum_cons, List.sum_nil, hmax]
    ring

/-- Witness for C1 at `p_cleave = 1/2`, `off_target_risk = 1/10`. -/
theorem outcome_values_sum_one_witness :
    (∀ v ∈ outcomeValues (1/10 : ℚ) (1/2), 0 ≤ v) ∧
      (outcomeValues (1/10 : ℚ) (1/2)).sum = 1 :=
  outcome_values_sum_one (1/2) (1/10) (by norm_num) (by norm_num)
    (by norm_num) (by norm_num) (by norm_num)

/-- C2: for `p_cleave, off_target_risk ∈ [0,1]` with
`off_target_risk + 0.4*p_cleave + 0.3*p_cleave + 0.01 > 1`, the output is
exactly `[off_risk, 0.4*p, 0.3*p, 0, 0.01]` (no normalization or clamping
of the first four values, `no_effect = 0`) and it sums to strictly
more than 1. -/
theorem outcome_values_overflow (p r : ℚ)
    (hp0 : 0 ≤ p) (hp1 : p ≤ 1) (hr0 : 0 ≤ r) (hr1 : r ≤ 1)
    (hgt : r + 0.4 * p + 0.3 * p + 0.01 > 1) :
    outcomeValues r p = [r, p * 0.4, p * 0.3, 0, 0.01] ∧
      (outcomeValues r p).sum > 1 := by
  have hmax : max 0 (1 - (r + p * 0.4 + p * 0.3 + 0.01)) = 0 := by
    apply max_eq_left
    nlinarith
  constructor
  · simp only [outcomeValues, hmax]
  · simp only [outcomeValues, List.sum_cons, List.sum_nil, hmax]
    nlinarith

/-- Witness for C2 at `p_cleave = 1`, `off_target_risk = 1/2`. -/
theorem outcome_values_overflow_witness :
    outcomeValues (1/2 : ℚ) 1 = [1/2, 1 * 0.4, 1 * 0.3, 0, 0.01] ∧
      (outcomeValues (1/2 : ℚ) 1).sum > 1 :=
  outcome_values_overflow 1 (1/2) (by norm_num) (by norm_num)
    (by norm_num) (by norm_num) (by norm_num)

/-- C9: for all non-negative inputs, the sum of the five values equals
`max 1 (off_target_risk + 0.7*p_cleave + 0.01)` — so the total is always
at least 1 — and every value is non-negative. -/
theorem outcome_values_sum_eq_max (p r : ℚ) (hp0 : 0 ≤ p) (hr0 : 0 ≤ r) :
    (outcomeValues r p).sum = max 1 (r + 0.7 * p + 0.01) ∧
      ∀ v ∈ outcomeValues r p, 0 ≤ v := by
  constructor
  · simp only [outcomeValues, List.sum_cons, List.sum_nil]
    rcases le_total (r + p * 0.4 + p * 0.3 + 0.01) 1 with h | h
    · rw [max_eq_right (by nlinarith : (0:ℚ) ≤ 1 - (r + p * 0.4 + p * 0.3 + 0.01)),
        max_eq_left (by nlinarith : r + 0.7 * p + 0.01 ≤ 1)]
      ring
    · rw [max_eq_left (by nlinarith : 1 - (r + p * 0.4 + p * 0.3 + 0.01) ≤ 0),
        max_eq_right (by nlinarith : (1:ℚ) ≤ r + 0.7 * p + 0.01)]
      ring
  · intro v hv
    simp only [outcomeValues, List.mem_cons, List.not_mem_nil, or_false] at hv
    rcases hv with h | h | h | h | h
    · exact h ▸ hr0
    · rw [h]; nlinarith
    · rw [h]; nlinarith
    · exact h ▸ le_max_left 0 _
    · rw [h]; norm_num

/-- Witness for C9 at `p_cleave = 2`, `off_target_risk = 3` (inputs need
not lie in `[0,1]`). -/
theorem outcome_values_sum_eq_max_witness :
    (outcomeValues (3 : ℚ) 2).sum = max 1 ((3 : ℚ) + 0.7 * 2 + 0.01) ∧
      ∀ v ∈ outcomeValues (3 : ℚ) 2, 0 ≤ v :=
  outcome_values_sum_eq_max 2 3 (by norm_num) (by norm_num)

/-! ## Guide Selector

Embeds the cut-position slider bound (app.py lines 117-119) and the
guide-window extraction (app.py lines 129-134). Genome sequences are
lists of characters; `Nat` subtraction models Python's `max(0, a - b)`
pattern exactly, and the explicit `max 0` of line 132 is kept. -/

/-- Python slice `s[a:b]` for `0 ≤ a` and `a ≤ b` (the only way the
embedded code calls it). -/
def pySlice (s : List Char) (a b : Nat) : List Char :=
  (s.drop a).take (b - a)

/-- Slider upper bound: `max_pos = len(genome_seq) - 21; if max_pos < 1:
max_pos = 1` (app.py lines 117-119). -/
def max_pos (genomeLen : Nat) : Nat :=
  if genomeLen - 21 < 1 then 1 else genomeLen - 21

/-- Clamped zero-based guide start, app.py line 132:
`guide_start = min(pos0, max(0, len(genome_seq) - 20))`. -/
def guide_start (genomeLen pos0 : Nat) : Nat :=
  min pos0 (max 0 (genomeLen - 20))

/-- Guide end, app.py line 133:
`guide_end = min(len(genome_seq), guide_start + 20)`. -/
def guide_end (genomeLen pos0 : Nat) : Nat :=
  min genomeLen (guide_start genomeLen pos0 + 20)

/-- Extracted guide, app.py line 134:
`guide_seq = genome_seq[guide_start:guide_end]`. -/
def guide_seq (genome : List Char) (pos0 : Nat) : List Char :=
  pySlice genome (guide_start genome.length pos0) (guide_end genome.length pos0)

/-- C3: for every non-empty genome and 1-based cut position ≥ 1, the guide
window satisfies `0 ≤ start ≤ end ≤ len` and `end - start ≤ 20`, and the
slice has exactly `end - start` characters (it is in bounds). -/
theorem guide_window_in_bounds (genome : List Char) (position : Nat)
    (hne : genome ≠ []) (hpos : 1 ≤ position) :
    guide_start genome.length (position - 1) ≤ guide_end genome.length (position - 1) ∧
    guide_end genome.length (position - 1) ≤ genome.length ∧
    guide_end genome.length (position - 1) - guide_start genome.length (position - 1) ≤ 20 ∧
    (guide_seq genome (position - 1)).length =
      guide_end genome.length (position - 1) - guide_start genome.length (position - 1) := by
  refine ⟨?_, ?_, ?_, ?_⟩
  · unfold guide_end guide_start
    omega
  · unfold guide_end
    omega
  · unfold guide_end
    omega
  · unfold guide_seq pySlice
    simp only [List.length_take, List.length_drop]
    unfold guide_end guide_start
    omega

/-- Witness for C3: genome `['A']`, position 5 (far out of range). -/
theorem guide_window_in_bounds_witness :
    guide_start (['A'] : List Char).length (5 - 1) ≤ guide_end (['A'] : List Char).length (5 - 1) ∧
    guide_end (['A'] : List Char).length (5 - 1) ≤ (['A'] : List Char).length ∧
    guide_end (['A'] : List Char).length (5 - 1) - guide_start (['A'] : List Char).length (5 - 1) ≤ 20 ∧
    (guide_seq ['A'] (5 - 1)).length =
      guide_end (['A'] : List Char).length (5 - 1) - guide_start (['A'] : List Char).length (5 - 1) :=
  guide_window_in_bounds ['A'] 5 (by simp) (by norm_num)

/-- C4 fails as stated: for the genome of length 22 the maximum slider
position is `max_pos 22 = 1`, and the resulting window ends at 20, not at
the genome length 22. -/
theorem guide_max_pos_cex :
    (List.replicate 22 'A').length ≥ 20 ∧
      guide_end (List.replicate 22 'A').length
        (max_pos (List.replicate 22 'A').length - 1) ≠
        (List.replicate 22 'A').length := by
  constructor
  · simp
  · simp only [List.length_replicate]
    decide

/-- C4 amended: for every genome length ≥ 20, the maximum slider position
yields a window of exactly length 20, ending at `min len (max 20 (len - 2))`
— equal to `len` only when `len = 20`. -/
theorem guide_max_pos_window (n : Nat) (h : 20 ≤ n) :
    guide_end n (max_pos n - 1) - guide_start n (max_pos n - 1) = 20 ∧
    guide_end n (max_pos n - 1) = min n (max 20 (n - 2)) := by
  unfold guide_end guide_start max_pos
  split <;> omega

/-- Witness for amended C4 at genome length 25. -/
theorem guide_max_pos_window_witness :
    guide_end 25 (max_pos 25 - 1) - guide_start 25 (max_pos 25 - 1) = 20 ∧
    guide_end 25 (max_pos 25 - 1) = min 25 (max 20 (25 - 2)) :=
  guide_max_pos_window 25 (by norm_num)

/-- C5 fails as stated: for a genome of length 41 the slider's upper bound
is `max_pos 41 = 20`, not `41 - 20 = 21`. -/
theorem slider_range_cex : max_pos 41 ≠ 41 - 20 := by decide

/-- C5 amended: the selectable 1-based positions are
`1 ≤ position ≤ len - 21` when `len ≥ 22`, and the upper bound degrades
to 1 when `len < 22` (sequence shorter than 22 bases). -/
theorem slider_range (n : Nat) :
    (22 ≤ n → max_pos n = n - 21) ∧ (n < 22 → max_pos n = 1) := by
  unfold max_pos
  split <;> omega

/-- Witness for amended C5 at genome lengths 50 and 10. -/
theorem slider_range_witness : max_pos 50 = 50 - 21 ∧ max_pos 10 = 1 :=
  ⟨(slider_range 50).1 (by norm_num), (slider_range 10).2 (by norm_num)⟩

/-- C6: for every non-empty genome and position ≥ 1, the window length is
exactly 20 unless the genome is shorter than 20 bases from the clamped
start (in which case the window runs to the end of the genome); and for a
genome of length 10, the window is the entire genome. -/
theorem guide_window_degraded (genome : List Char) (position : Nat)
    (hne : genome ≠ []) (hpos : 1 ≤ position) :
    (guide_end genome.length (position - 1) - guide_start genome.length (position - 1) = 20 ∨
      (genome.length - guide_start genome.length (position - 1) < 20 ∧
        guide_end genome.length (position - 1) = genome.length)) ∧
    (genome.length = 10 → guide_seq genome (position - 1) = genome) := by
  constructor
  · unfold guide_end guide_start
    omega
  · intro h10
    have h1 : guide_start genome.length (position - 1) = 0 := by
      unfold guide_start
      omega
    have h2 : guide_end genome.length (position - 1) = genome.length := by
      unfold guide_end guide_start
      omega
    unfold guide_seq pySlice
    rw [h1, h2]
    simp

/-- Witness for C6: genome of length 10, cut position 7. -/
theorem guide_window_degraded_witness :
    (guide_end (List.replicate 10 'G').length (7 - 1) -
        guide_start (List.replicate 10 'G').length (7 - 1) = 20 ∨
      ((List.replicate 10 'G').length -
          guide_start (List.replicate 10 'G').length (7 - 1) < 20 ∧
        guide_end (List.replicate 10 'G').length (7 - 1) =
          (List.replicate 10 'G').length)) ∧
    ((List.replicate 10 'G').length = 10 →
      guide_seq (List.replicate 10 'G') (7 - 1) = List.replicate 10 'G') :=
  guide_window_degraded (List.replicate 10 'G') 7 (by simp) (by norm_num)

/-! ## Sequence Differ

Embeds the comparison loop of `run_compare_variants_tab` (app.py lines
254-263). Each loop iteration appends either the raw target character (a
match) or the target character wrapped in red-bold markup (a mismatch);
the two cases are modelled by a `Marker` with the carried character. The
trailing `"..."` of line 263 is the truncation flag. -/

/-- One per-position diff marker: either the raw target character or the
target character flagged as a mutation (the red-bold span). -/
inductive Marker where
  | matched (c : Char)
  | mismatch (c : Char)
deriving DecidableEq

/-- The character a marker displays. -/
def Marker.carried : Marker → Char
  | .matched c => c
  | .mismatch c => c

/-- The comparison loop, app.py lines 256-260: position `i` of the result
compares `base[i]` with `target[i]`; the fuel argument is the remaining
number of iterations of `range(compare_length)`. -/
def diffMarkers : List Char → List Char → Nat → List Marker
  | _, _, 0 => []
  | [], _, _ + 1 => []
  | _ :: _, [], _ + 1 => []
  | b :: bs, t :: ts, n + 1 =>
    (if b ≠ t then Marker.mismatch t else Marker.matched t) :: diffMarkers bs ts n

/-- Comparison length, app.py line 254:
`compare_length = min(500, len(base), len(target))`. -/
def compare_length (base target : List Char) : Nat :=
  min 500 (min base.length target.length)

/-- Truncation flag, app.py lines 262-263: a trailing `"..."` is appended
exactly when `len(base) > compare_length`. -/
def diff_truncated (base target : List Char) : Bool :=
  decide (base.length > compare_length base target)

theorem diffMarkers_length (base target : List Char) (n : Nat) :
    (diffMarkers base target n).length = min n (min base.length target.length) := by
  induction base generalizing target n with
  | nil =>
    cases n <;> simp [diffMarkers]
  | cons b bs ih =>
    cases target with
    | nil => cases n <;> simp [diffMarkers]
    | cons t ts =>
      cases n with
      | zero => simp [diffMarkers]
      | succ m =>
        simp only [diffMarkers, List.length_cons, ih]
        omega

/-- C7: with limit 500 the differ emits exactly
`min 500 (min base.length target.length)` markers, and the truncation
marker is appended iff `base` is longer than that count. -/
theorem diff_marker_count (base target : List Char) :
    (diffMarkers base target 500).length = compare_length base target ∧
    (diff_truncated base target = true ↔
      base.length > compare_length base target) := by
  constructor
  · exact diffMarkers_length base target 500
  · simp [diff_truncated]

/-- C8: every compared position `i` holds a mismatch marker iff
`base[i] ≠ target[i]`, carrying `target[i]`; otherwise a match marker
carrying the shared character. -/
theorem diff_marker_at (base target : List Char) (n i : Nat)
    (h : i < (diffMarkers base target n).length) :
    (diffMarkers base target n).getD i (Marker.matched 'A') =
      if base.getD i 'A' ≠ target.getD i 'A'
      then Marker.mismatch (target.getD i 'A')
      else Marker.matched (target.getD i 'A') := by
  induction base generalizing target n i with
  | nil =>
    cases n <;> simp [diffMarkers] at h
  | cons b bs ih =>
    cases target with
    | nil => cases n <;> simp [diffMarkers] at h
    | cons t ts =>
      cases n with
      | zero => simp [diffMarkers] at h
      | succ m =>
        cases i with
        | zero => simp [diffMarkers]
        | succ j =>
          simp only [diffMarkers, List.getD_cons_succ]
          exact ih ts m j (by simpa [diffMarkers] using h)

/-- Witness for C8: a single substitution at index 3 between `ACGT` and
`ACGA` is reported as a mismatch carrying the target's character `A`. -/
theorem diff_marker_at_witness :
    3 < (diffMarkers ['A', 'C', 'G', 'T'] ['A', 'C', 'G', 'A'] 500).length ∧
    (diffMarkers ['A', 'C', 'G', 'T'] ['A', 'C', 'G', 'A'] 500).getD 3
        (Marker.matched 'A') = Marker.mismatch 'A' := by
  refine ⟨by decide, ?_⟩
  rw [diff_marker_at ['A', 'C', 'G', 'T'] ['A', 'C', 'G', 'A'] 500 3 (by decide)]
  decide

theorem diffMarkers_map_carried (base target : List Char) (n : Nat) :
    (diffMarkers base target n).map Marker.carried =
      target.take (min n (min base.length target.length)) := by
  induction base generalizing target n with
  | nil => cases n <;> simp [diffMarkers]
  | cons b bs ih =>
    cases target with
    | nil => cases n <;> simp [diffMarkers]
    | cons t ts =>
      cases n with
      | zero => simp [diffMarkers]
      | succ m =>
        have hmin : min (m + 1) (min (bs.length + 1) (ts.length + 1)) =
            min m (min bs.length ts.length) + 1 := by omega
        have hcar : Marker.carried (if b ≠ t then Marker.mismatch t else Marker.matched t) = t := by
          split <;> rfl
        simp only [diffMarkers, List.map_cons, ih, List.length_cons, hmin,
          List.take_succ_cons, hcar]

/-- C10: concatenating the characters carried by the markers, in order,
yields exactly the prefix `target[0:n]` with `n = compare_length`; every
displayed character comes from the target. -/
theorem diff_carried_eq_target_prefix (base target : List Char) :
    (diffMarkers base target 500).map Marker.carried =
      target.take (compare_length base target) :=
  diffMarkers_map_carried base target 500

end CrisprSim
